import Mathlib

/-!
A shallow embedding of the magnetic boundary-deformation engine of the
`magnetic` repository, together with theorems checking the specification's
claims against it.

The embedding covers, faithfully to the source:

* the rectangle component `MagneticLavaRectangle` (geometry generator,
  perceived-cursor transform, per-point displacement solver with corner
  locking and the outward-only clamp, point sorting and path emission,
  the membership tester's guard/fallback structure, and the
  inside-notification logic of `calculateMagneticEffect`);
* the sphere demo pipeline `LavaSphereDemo` (`PhysicsUtils`,
  `computePoints`, `buildSmoothPath`).

Real-valued code (square roots, fractional powers, trigonometry) is
embedded over `ℝ`; purely rational/boolean state (the membership tester
and the notification state machine) is embedded computably over `ℚ` and
`Bool` so that concrete runs can be decided.
-/

namespace Magnetic

/-- The four logical edges of a rectangle boundary
(`'top' | 'right' | 'bottom' | 'left'` in the source). -/
inductive Side where
  | top
  | right
  | bottom
  | left
deriving DecidableEq

/-- The `RectPoint` record of the source: current position `(x, y)`,
resting position `(baseX, baseY)`, owning edge `side`, and the parameter
`sidePosition` along that edge. -/
structure RectPoint (α : Type) where
  x : α
  y : α
  side : Side
  baseX : α
  baseY : α
  sidePosition : α
deriving DecidableEq

namespace MATH_CONSTANTS

/-- `MATH_CONSTANTS.HALF = 0.5` from the source. -/
def HALF : ℝ := 0.5

/-- `MATH_CONSTANTS.SQRT_HALF = 0.707` from the source. -/
def SQRT_HALF : ℝ := 0.707

/-- `MATH_CONSTANTS.NEGATIVE_SQRT_HALF = -0.707` from the source. -/
def NEGATIVE_SQRT_HALF : ℝ := -0.707

/-- `MATH_CONSTANTS.CORNER_BLEND_FACTOR = 0.3` from the source. -/
def CORNER_BLEND_FACTOR : ℝ := 0.3

/-- `MATH_CONSTANTS.STRETCH_SCALE_FACTOR = 0.5` from the source. -/
def STRETCH_SCALE_FACTOR : ℝ := 0.5

end MATH_CONSTANTS

namespace VectorUtils

/-- `VectorUtils.calculateDistance(x1, y1, x2, y2)`:
`sqrt((x2-x1)^2 + (y2-y1)^2)`. -/
noncomputable def calculateDistance (x1 y1 x2 y2 : ℝ) : ℝ :=
  Real.sqrt ((x2 - x1) ^ 2 + (y2 - y1) ^ 2)

/-- Result record of `VectorUtils.normalizeVector`. -/
structure NormVec where
  x : ℝ
  y : ℝ
  length : ℝ

/-- `VectorUtils.normalizeVector(x, y)`: unit vector when the length is
positive, `(0, 0)` otherwise. -/
noncomputable def normalizeVector (x y : ℝ) : NormVec :=
  let length := Real.sqrt (x * x + y * y)
  { x := if length > 0 then x / length else 0
    y := if length > 0 then y / length else 0
    length := length }

end VectorUtils

/-- `calculateCornerNormal(side, sidePosition)`: the diagonal outward
normal (`±0.707, ±0.707`) assigned to each corner. -/
noncomputable def calculateCornerNormal (side : Side) (sidePosition : ℝ) : ℝ × ℝ :=
  match side with
  | .top =>
    if sidePosition = 0 then (MATH_CONSTANTS.NEGATIVE_SQRT_HALF, MATH_CONSTANTS.NEGATIVE_SQRT_HALF)
    else (MATH_CONSTANTS.SQRT_HALF, MATH_CONSTANTS.NEGATIVE_SQRT_HALF)
  | .right =>
    if sidePosition = 0 then (MATH_CONSTANTS.SQRT_HALF, MATH_CONSTANTS.NEGATIVE_SQRT_HALF)
    else (MATH_CONSTANTS.SQRT_HALF, MATH_CONSTANTS.SQRT_HALF)
  | .bottom =>
    if sidePosition = 0 then (MATH_CONSTANTS.SQRT_HALF, MATH_CONSTANTS.SQRT_HALF)
    else (MATH_CONSTANTS.NEGATIVE_SQRT_HALF, MATH_CONSTANTS.SQRT_HALF)
  | .left =>
    if sidePosition = 0 then (MATH_CONSTANTS.NEGATIVE_SQRT_HALF, MATH_CONSTANTS.SQRT_HALF)
    else (MATH_CONSTANTS.NEGATIVE_SQRT_HALF, MATH_CONSTANTS.NEGATIVE_SQRT_HALF)

/-- `calculateSurfaceNormal(point, isCorner)`: corner normal for corners,
axis-aligned outward normal for edge points. -/
noncomputable def calculateSurfaceNormal (point : RectPoint ℝ) (isCorner : Bool) : ℝ × ℝ :=
  if isCorner then calculateCornerNormal point.side point.sidePosition
  else
    match point.side with
    | .top => (0, -1)
    | .right => (1, 0)
    | .bottom => (0, 1)
    | .left => (-1, 0)

namespace CoordinateUtils

/-- `CoordinateUtils.screenToSvg(screenCoord, screenCenter, svgCenter)`
from the rectangle component. -/
def screenToSvg (screenCoord screenCenter svgCenter : ℝ) : ℝ :=
  (screenCoord - screenCenter) + svgCenter

end CoordinateUtils

/-- The rectangle component's `PhysicsConfig` record. -/
structure PhysicsConfig where
  width : ℝ
  height : ℝ
  stretchiness : ℝ
  minDistance : ℝ
  perceivedCursorOffset : ℝ

namespace PhysicsUtils

/-- `PhysicsUtils.calculateBaseMagneticForce(distance, effectiveDistance)`
of the rectangle component: `(1 - min(distance/effectiveDistance, 1))^2`. -/
noncomputable def calculateBaseMagneticForce (distance effectiveDistance : ℝ) : ℝ :=
  let normalizedDistance := min (distance / effectiveDistance) 1
  (1 - normalizedDistance) ^ 2

/-- `PhysicsUtils.calculateStretch(magneticForce, strength, config)`. -/
def calculateStretch (magneticForce strength : ℝ) (config : PhysicsConfig) : ℝ :=
  magneticForce * strength * config.stretchiness * MATH_CONSTANTS.STRETCH_SCALE_FACTOR

end PhysicsUtils

/-- `generateCornerPoints(dimensions)`: the 4 geometric corners, emitted
unconditionally, tagged `(top, 0)`, `(top, 1)`, `(bottom, 0)`, `(bottom, 1)`. -/
def generateCornerPoints {α : Type} [LinearOrderedField α] (width height : α) :
    List (RectPoint α) :=
  [ { x := 0, y := 0, baseX := 0, baseY := 0, side := .top, sidePosition := 0 },
    { x := width, y := 0, baseX := width, baseY := 0, side := .top, sidePosition := 1 },
    { x := width, y := height, baseX := width, baseY := height, side := .bottom, sidePosition := 0 },
    { x := 0, y := height, baseX := 0, baseY := height, side := .bottom, sidePosition := 1 } ]

/-- `generateSidePoints({side, pointsPerSide, dimensions})`: the loop
`for (i = 1; i < pointsPerSide - 1; i++)` with `t = i / (pointsPerSide - 1)`,
interpolating interior points along one edge. -/
def generateSidePoints {α : Type} [LinearOrderedField α]
    (side : Side) (pointsPerSide : ℕ) (width height : α) : List (RectPoint α) :=
  (List.range' 1 (pointsPerSide - 2)).map fun (i : ℕ) =>
    let t : α := (i : α) / ((pointsPerSide : α) - 1)
    let xy : α × α :=
      match side with
      | .top => (t * width, 0)
      | .right => (width, t * height)
      | .bottom => (width - t * width, height)
      | .left => (0, height - t * height)
    { x := xy.1, y := xy.2, baseX := xy.1, baseY := xy.2, side := side, sidePosition := t }

/-- `generateRectanglePoints({dimensions, activeSides, pointsPerSide})`:
the 4 corners followed by interior points of each active side. -/
def generateRectanglePoints {α : Type} [LinearOrderedField α]
    (width height : α) (activeSides : List Side) (pointsPerSide : ℕ) : List (RectPoint α) :=
  generateCornerPoints width height ++
    activeSides.flatMap fun side => generateSidePoints side pointsPerSide width height

/-- `calculatePerceivedCursor({mouseX, mouseY, centerX, centerY, offset})`:
identity at offset 0, fixed fallback direction when the cursor sits on the
center, otherwise the cursor pushed `offset` farther out along the ray from
the center. -/
noncomputable def calculatePerceivedCursor (mouseX mouseY centerX centerY offset : ℝ) : ℝ × ℝ :=
  if offset = 0 then (mouseX, mouseY)
  else
    let directionX := mouseX - centerX
    let directionY := mouseY - centerY
    let distance := VectorUtils.calculateDistance mouseX mouseY centerX centerY
    if distance = 0 then (centerX + offset, centerY)
    else
      let normalized := VectorUtils.normalizeVector directionX directionY
      let perceivedDistance := distance + offset
      (centerX + normalized.x * perceivedDistance, centerY + normalized.y * perceivedDistance)

/-- The adjacent-side table built inside `checkCornerActivity`. -/
def adjacentSides {α : Type} [LinearOrderedField α] (point : RectPoint α) : List Side :=
  match point.side with
  | .top => if point.sidePosition = 0 then [.top, .left] else [.top, .right]
  | .right => if point.sidePosition = 0 then [.right, .top] else [.right, .bottom]
  | .bottom => if point.sidePosition = 0 then [.bottom, .right] else [.bottom, .left]
  | .left => if point.sidePosition = 0 then [.left, .bottom] else [.left, .top]

/-- `checkCornerActivity(point, activeSides)`: true exactly when every
side adjacent to the corner is active. -/
def checkCornerActivity {α : Type} [LinearOrderedField α]
    (point : RectPoint α) (activeSides : List Side) : Bool :=
  (adjacentSides point).all fun side => activeSides.contains side

/-- `applyCornerDampening({strength, isCorner, point, factor})`: corners are
scaled by `factor`; edge points inside the corner blend zone ease from
`factor` up to 1 with `1 - (1 - t)^2`. -/
noncomputable def applyCornerDampening (strength : ℝ) (isCorner : Bool)
    (point : RectPoint ℝ) (factor : ℝ) : ℝ :=
  if isCorner then strength * factor
  else
    let distanceFromCorner := min point.sidePosition (1 - point.sidePosition)
    if distanceFromCorner < MATH_CONSTANTS.CORNER_BLEND_FACTOR then
      let normalizedDistance := distanceFromCorner / MATH_CONSTANTS.CORNER_BLEND_FACTOR
      let smoothFactor := 1 - (1 - normalizedDistance) ^ 2
      let cornerDampening := factor + (1 - factor) * smoothFactor
      strength * cornerDampening
    else strength

/-- `deformationMode : 'cursor' | 'surface-normal'`. -/
inductive DeformationMode where
  | cursor
  | surfaceNormal
deriving DecidableEq

/-- Result record of `calculateDeformation`. -/
structure Deformation where
  newX : ℝ
  newY : ℝ
  directionX : ℝ
  directionY : ℝ

/-- `calculateDeformation({point, cursorX, cursorY, strength, mode, isCorner})`:
cursor mode moves straight toward the cursor; surface-normal mode projects
onto the outward normal and only applies positive dot products. -/
noncomputable def calculateDeformation (point : RectPoint ℝ) (cursorX cursorY strength : ℝ)
    (mode : DeformationMode) (isCorner : Bool) : Deformation :=
  match mode with
  | .cursor =>
    let directionToCursor := VectorUtils.normalizeVector (cursorX - point.baseX) (cursorY - point.baseY)
    { newX := point.baseX + directionToCursor.x * strength
      newY := point.baseY + directionToCursor.y * strength
      directionX := directionToCursor.x
      directionY := directionToCursor.y }
  | .surfaceNormal =>
    let surfaceNormal := calculateSurfaceNormal point isCorner
    let pointToCursorDirection := VectorUtils.normalizeVector (cursorX - point.baseX) (cursorY - point.baseY)
    let dotProduct := surfaceNormal.1 * pointToCursorDirection.x + surfaceNormal.2 * pointToCursorDirection.y
    let directionalForce := if dotProduct > 0 then strength * dotProduct else 0
    { newX := point.baseX + surfaceNormal.1 * directionalForce
      newY := point.baseY + surfaceNormal.2 * directionalForce
      directionX := surfaceNormal.1
      directionY := surfaceNormal.2 }

/-- `preventInwardMovement({point, newX, newY, isCorner, config})`, kept
exactly as in the source, including the corner-branch center computation
`config.width / MATH_CONSTANTS.HALF` (that is, `width / 0.5`). -/
noncomputable def preventInwardMovement (point : RectPoint ℝ) (newX newY : ℝ)
    (isCorner : Bool) (config : PhysicsConfig) : ℝ × ℝ :=
  if isCorner then
    let rectCenterX := config.width / MATH_CONSTANTS.HALF
    let rectCenterY := config.height / MATH_CONSTANTS.HALF
    let isLeftCorner := point.baseX < rectCenterX
    let isTopCorner := point.baseY < rectCenterY
    let finalX :=
      if isLeftCorner then (if newX > point.baseX then point.baseX else newX)
      else (if newX < point.baseX then point.baseX else newX)
    let finalY :=
      if isTopCorner then (if newY > point.baseY then point.baseY else newY)
      else (if newY < point.baseY then point.baseY else newY)
    (finalX, finalY)
  else
    match point.side with
    | .top => (newX, if newY > point.baseY then point.baseY else newY)
    | .right => ((if newX < point.baseX then point.baseX else newX), newY)
    | .bottom => (newX, if newY < point.baseY then point.baseY else newY)
    | .left => ((if newX > point.baseX then point.baseX else newX), newY)

/-- `getSortOrder(point)`: the `SORT_ORDER_*` key used to order points
top-left corner first, then top, right, bottom, left. -/
def getSortOrder {α : Type} [LinearOrderedField α] (point : RectPoint α) : ℕ :=
  if point.side = Side.top ∧ point.sidePosition = 0 then 0
  else if point.side = Side.top then 1
  else if point.side = Side.right then 2
  else if point.side = Side.bottom then 3
  else if point.side = Side.left then 4
  else 5

/-- The total preorder realized by the sort comparator
`(a, b) => getSortOrder(a) - getSortOrder(b) || a.sidePosition - b.sidePosition`. -/
def sortKeyLE {α : Type} [LinearOrderedField α] (a b : RectPoint α) : Prop :=
  getSortOrder a < getSortOrder b ∨
    (getSortOrder a = getSortOrder b ∧ a.sidePosition ≤ b.sidePosition)

instance sortKeyLE.instDecidableRel {α : Type} [LinearOrderedField α] :
    DecidableRel (sortKeyLE (α := α)) := fun a b => by
  unfold sortKeyLE
  infer_instance

/-- The stable sort `transformedPoints.sort(comparator)` of the source,
realized as a stable insertion sort by the comparator's preorder. -/
def sortPoints {α : Type} [LinearOrderedField α] (points : List (RectPoint α)) :
    List (RectPoint α) :=
  List.insertionSort sortKeyLE points

/-- The configuration surface of the `MagneticLavaRectangle` component
that the path generator reads. -/
structure LavaProps where
  width : ℝ
  height : ℝ
  activeSides : List Side
  pointsPerSide : ℕ
  stretchiness : ℝ
  minDistance : ℝ
  perceivedCursorOffset : ℝ
  cornerDeflectionFactor : ℝ
  deformationMode : DeformationMode

/-- The `physicsConfig` record the component assembles from its props. -/
def lavaPhysicsConfig (props : LavaProps) : PhysicsConfig :=
  { width := props.width
    height := props.height
    stretchiness := props.stretchiness
    minDistance := props.minDistance
    perceivedCursorOffset := props.perceivedCursorOffset }

/-- The per-call environment `generateLavaPath` sets up before mapping over
the points: svg centers (`width / MATH_CONSTANTS.HALF`, as in the source),
the perceived cursor and its svg-space image. -/
structure LavaCtx where
  props : LavaProps
  strength : ℝ
  effectiveDistance : ℝ
  centerX : ℝ
  centerY : ℝ
  svgCenterX : ℝ
  svgCenterY : ℝ
  perceivedX : ℝ
  perceivedY : ℝ
  cursorSvgX : ℝ
  cursorSvgY : ℝ

/-- Builds the `LavaCtx` exactly as the head of `generateLavaPath` does. -/
noncomputable def mkLavaCtx (props : LavaProps)
    (mouseX mouseY centerX centerY strength effectiveDistance : ℝ) : LavaCtx :=
  let svgCenterX := props.width / MATH_CONSTANTS.HALF
  let svgCenterY := props.height / MATH_CONSTANTS.HALF
  let perceivedCursor :=
    calculatePerceivedCursor mouseX mouseY centerX centerY props.perceivedCursorOffset
  let cursorSvgX := CoordinateUtils.screenToSvg perceivedCursor.1 centerX svgCenterX
  let cursorSvgY := CoordinateUtils.screenToSvg perceivedCursor.2 centerY svgCenterY
  { props := props, strength := strength, effectiveDistance := effectiveDistance
    centerX := centerX, centerY := centerY
    svgCenterX := svgCenterX, svgCenterY := svgCenterY
    perceivedX := perceivedCursor.1, perceivedY := perceivedCursor.2
    cursorSvgX := cursorSvgX, cursorSvgY := cursorSvgY }

/-- The displacement applied to a point that passed the activity gate: the
body of the `points.map` callback in `generateLavaPath` after the early
returns. -/
noncomputable def displacePoint (ctx : LavaCtx) (point : RectPoint ℝ)
    (isCornerPoint : Bool) : RectPoint ℝ :=
  let config := lavaPhysicsConfig ctx.props
  let pointScreenX := ctx.centerX + (point.baseX - ctx.svgCenterX)
  let pointScreenY := ctx.centerY + (point.baseY - ctx.svgCenterY)
  let rawPointDistance :=
    VectorUtils.calculateDistance ctx.perceivedX ctx.perceivedY pointScreenX pointScreenY
  let pointDistanceToMouse := max rawPointDistance config.minDistance
  let baseMagneticForce :=
    PhysicsUtils.calculateBaseMagneticForce pointDistanceToMouse ctx.effectiveDistance
  let attractionStrength := baseMagneticForce * ctx.strength
  let attractionStrength :=
    applyCornerDampening attractionStrength isCornerPoint point ctx.props.cornerDeflectionFactor
  let deformation :=
    calculateDeformation point ctx.cursorSvgX ctx.cursorSvgY attractionStrength
      ctx.props.deformationMode isCornerPoint
  let stretchAmount := PhysicsUtils.calculateStretch baseMagneticForce ctx.strength config
  let finalX :=
    if stretchAmount > 0 then deformation.newX + deformation.directionX * stretchAmount
    else deformation.newX
  let finalY :=
    if stretchAmount > 0 then deformation.newY + deformation.directionY * stretchAmount
    else deformation.newY
  let prevented := preventInwardMovement point finalX finalY isCornerPoint config
  { point with x := prevented.1, y := prevented.2 }

/-- One step of the `points.map` callback in `generateLavaPath`: the
corner/edge activity gate returning the point unchanged, else the
displacement. -/
noncomputable def transformPoint (ctx : LavaCtx) (point : RectPoint ℝ) : RectPoint ℝ :=
  let isActive := ctx.props.activeSides.contains point.side
  let isCornerPoint : Bool := point.sidePosition = 0 ∨ point.sidePosition = 1
  if isCornerPoint then
    if checkCornerActivity point ctx.props.activeSides then displacePoint ctx point isCornerPoint
    else point
  else
    if isActive then displacePoint ctx point isCornerPoint else point

/-- `generateLavaPath(...)` as emitted geometry: the ordered coordinate
sequence of the `M ... L ... Z` path string it builds. -/
noncomputable def generateLavaPathPoints (props : LavaProps)
    (mouseX mouseY centerX centerY strength effectiveDistance : ℝ) : List (ℝ × ℝ) :=
  let points :=
    generateRectanglePoints props.width props.height props.activeSides props.pointsPerSide
  let ctx := mkLavaCtx props mouseX mouseY centerX centerY strength effectiveDistance
  let transformedPoints := points.map (transformPoint ctx)
  let sortedPoints := sortPoints transformedPoints
  sortedPoints.map fun p => (p.x, p.y)

/-- The resting path of a configuration: the emitted coordinate sequence of
the boundary points with no displacement applied.  This is the comparison
path the spec's round-trip property refers to. -/
noncomputable def restingLavaPath (props : LavaProps) : List (ℝ × ℝ) :=
  (sortPoints
    (generateRectanglePoints props.width props.height props.activeSides props.pointsPerSide)).map
    fun p => (p.x, p.y)

/-- The rendering-surface state `isPointInCurrentShape` reads: whether the
svg and path refs are mounted, the stored current path string, the
on-screen bounding rect of the svg, and the shape dimensions. -/
structure MembershipEnv where
  svgPresent : Bool
  pathPresent : Bool
  currentPath : String
  rectLeft : ℚ
  rectTop : ℚ
  rectWidth : ℚ
  rectHeight : ℚ
  width : ℚ
  height : ℚ

/-- Which primitive the membership test ended up using: nothing (guard
returned early), the native fill test, or the bounding-box fallback. -/
inductive FillMethod where
  | unqueried
  | fillTest
  | fallback
deriving DecidableEq

/-- `isPointInCurrentShape(x, y)`: early `false` when a ref is missing or
the current path is the empty string; otherwise converts to local
coordinates and queries the fill-test primitive, falling back to the
bounding-box check when the primitive throws.  The second component
records which primitive was invoked. -/
def isPointInCurrentShape (env : MembershipEnv)
    (fillTest : ℚ → ℚ → Except Unit Bool) (x y : ℚ) : Bool × FillMethod :=
  if !env.svgPresent || !env.pathPresent || env.currentPath == "" then
    (false, .unqueried)
  else
    let svgX := x - env.rectLeft
    let svgY := y - env.rectTop
    let localX := svgX / env.rectWidth * env.width
    let localY := svgY / env.rectHeight * env.height
    match fillTest localX localY with
    | .ok inside => (inside, .fillTest)
    | .error _ =>
      (decide (0 ≤ localX ∧ localX ≤ env.width ∧ 0 ≤ localY ∧ localY ≤ env.height), .fallback)

/-- Modelled from the spec: the Membership Tester delegates containment to
"the rendering surface's native fill-test primitive" (`isPointInFill`),
which is not part of this repository.  When the current path is the resting
4-corner rectangle of a `width × height` shape, that fill test is
containment in the rectangle `[0, width] × [0, height]`. -/
def restingRectFillTest (width height : ℚ) : ℚ → ℚ → Except Unit Bool :=
  fun x y => .ok (decide (0 ≤ x ∧ x ≤ width ∧ 0 ≤ y ∧ y ≤ height))

/-- The screen-space rectangle center `calculateMagneticEffect` computes:
`svgRect.left + svgRect.width / MATH_CONSTANTS.HALF` (kept exactly as in
the source). -/
noncomputable def rectScreenCenter (env : MembershipEnv) : ℝ × ℝ :=
  ((env.rectLeft : ℝ) + (env.rectWidth : ℝ) / MATH_CONSTANTS.HALF,
   (env.rectTop : ℝ) + (env.rectHeight : ℝ) / MATH_CONSTANTS.HALF)

/-- The inside-notification logic of `calculateMagneticEffect`: the state
update `setIsInside` and whether `onCursorInside` fires, given the stored
state and the current membership result. -/
def notifyStep (isInside currentlyInside : Bool) : Bool × Bool :=
  if currentlyInside != isInside then (currentlyInside, true) else (isInside, false)

/-- Runs the notification logic over a sequence of per-frame membership
results, returning the final stored state and how many times the callback
fired. -/
def runNotify : Bool → List Bool → Bool × ℕ
  | isInside, [] => (isInside, 0)
  | isInside, b :: bs =>
    let step := notifyStep isInside b
    let rest := runNotify step.1 bs
    (rest.1, (if step.2 then 1 else 0) + rest.2)

/-- The membership result `calculateMagneticEffect` computes for one frame's
attractor position. -/
def frameMembership (env : MembershipEnv)
    (fillTest : ℚ → ℚ → Except Unit Bool) (pos : ℚ × ℚ) : Bool :=
  (isPointInCurrentShape env fillTest pos.1 pos.2).1

/-- Runs the recomputation cycles of `calculateMagneticEffect` for a list of
attractor positions, threading the `isInside` state and counting
`onCursorInside` calls. -/
def runFrames (env : MembershipEnv) (fillTest : ℚ → ℚ → Except Unit Bool)
    (isInside : Bool) (frames : List (ℚ × ℚ)) : Bool × ℕ :=
  runNotify isInside (frames.map (frameMembership env fillTest))

/-- A concrete rendering-surface state for notification runs: a `100 × 100`
rectangle at the window origin whose current path is its resting 4-corner
path. -/
def envSquare : MembershipEnv :=
  { svgPresent := true
    pathPresent := true
    currentPath := "M 0,0 L 100,0 L 100,100 L 0,100 Z"
    rectLeft := 0
    rectTop := 0
    rectWidth := 100
    rectHeight := 100
    width := 100
    height := 100 }

namespace Sphere

/-- `SVG_WIDTH` of the sphere demo. -/
def SVG_WIDTH : ℝ := 600

/-- `SVG_HEIGHT` of the sphere demo. -/
def SVG_HEIGHT : ℝ := 600

/-- `SCREEN_WIDTH` of the sphere demo. -/
def SCREEN_WIDTH : ℝ := 400

/-- `SCREEN_HEIGHT` of the sphere demo. -/
def SCREEN_HEIGHT : ℝ := 400

/-- `TAU = Math.PI * 2`. -/
noncomputable def TAU : ℝ := Real.pi * 2

/-- `UI_CONSTANTS.pointinessStrengthFactor` of the sphere demo. -/
def pointinessStrengthFactor : ℝ := 0.8

/-- `UI_CONSTANTS.minCloseDampeningFactor` of the sphere demo. -/
def minCloseDampeningFactor : ℝ := 0.2

/-- The sphere demo's `PhysicsConfig` record. -/
structure PhysicsConfig where
  baseRadius : ℝ
  attractionMultiplier : ℝ
  pointinessFactor : ℝ
  minDistance : ℝ
  surfaceBuffer : ℝ
  stretchFactor : ℝ
  pointinessMultiplier : ℝ
  smoothingFactor : ℝ
  dampeningPower : ℝ
  forceCurveExponent : ℝ
  minDampeningFactor : ℝ
  perceivedCursorOffset : ℝ
  svgSize : ℝ
  screenToSvgRatio : ℝ
  maxPointiness : ℝ
  closeDampeningThreshold : ℝ
  tipActivationThreshold : ℝ
  maxTipFactor : ℝ
  pointyReductionAmount : ℝ

/-- The sphere demo's `DEFAULT_PHYSICS` constant. -/
noncomputable def DEFAULT_PHYSICS : PhysicsConfig :=
  { baseRadius := 150
    attractionMultiplier := 30
    pointinessFactor := 0.5
    minDistance := 20
    surfaceBuffer := 60
    stretchFactor := 0.6
    pointinessMultiplier := 1.2
    smoothingFactor := 0.4
    dampeningPower := 0.6
    forceCurveExponent := 2.5
    minDampeningFactor := 0.15
    perceivedCursorOffset := 30
    svgSize := SVG_WIDTH
    screenToSvgRatio := SVG_WIDTH / SCREEN_WIDTH
    maxPointiness := 0.6
    closeDampeningThreshold := 2
    tipActivationThreshold := 0.6
    maxTipFactor := 1
    pointyReductionAmount := 15 }

/-- `PhysicsUtils.calculateBaseMagneticForce(distance, effectiveDistance,
config)` of the sphere demo:
`(1 - min(distance/effectiveDistance, 1)) ^ forceCurveExponent`. -/
noncomputable def calculateBaseMagneticForce (distance effectiveDistance : ℝ)
    (config : PhysicsConfig) : ℝ :=
  let normalizedDistance := distance / effectiveDistance
  (1 - min normalizedDistance 1) ^ config.forceCurveExponent

/-- `PhysicsUtils.calculateGlobalDampening(distance, config)` of the sphere
demo: 1 outside `sphereRadius + surfaceBuffer`; inside, the surface-distance
ratio floored at `minDampeningFactor` and raised to `dampeningPower`. -/
noncomputable def calculateGlobalDampening (distance : ℝ) (config : PhysicsConfig) : ℝ :=
  let sphereRadius := config.baseRadius * (SCREEN_WIDTH / config.svgSize)
  if distance < sphereRadius + config.surfaceBuffer then
    let distanceFromSurface := max (distance - sphereRadius) 0
    let dampeningFactor := max (distanceFromSurface / config.surfaceBuffer) config.minDampeningFactor
    dampeningFactor ^ config.dampeningPower
  else 1

/-- `PhysicsUtils.calculateCloseDampening(rawDistance, config)` of the
sphere demo. -/
noncomputable def calculateCloseDampening (rawDistance : ℝ) (config : PhysicsConfig) : ℝ :=
  if rawDistance < config.minDistance * config.closeDampeningThreshold then
    max (rawDistance / (config.minDistance * config.closeDampeningThreshold))
      minCloseDampeningFactor
  else 1

/-- `PhysicsUtils.calculatePointiness(magneticForce, strength, rawDistance,
config)` of the sphere demo. -/
noncomputable def calculatePointiness (magneticForce strength rawDistance : ℝ)
    (config : PhysicsConfig) : ℝ :=
  if magneticForce > config.tipActivationThreshold ∧ rawDistance > config.minDistance then
    let tipFactor :=
      min ((magneticForce - config.tipActivationThreshold) / (1 - config.tipActivationThreshold))
        config.maxTipFactor
    let pointiness :=
      min (magneticForce * strength * pointinessStrengthFactor) config.maxPointiness
    pointiness * tipFactor * config.pointinessFactor
  else 0

/-- `CoordinateUtils.screenToSvg(screenCoord, screenCenter, svgCenter,
ratio)` of the sphere demo. -/
def screenToSvg (screenCoord screenCenter svgCenter ratio : ℝ) : ℝ :=
  (screenCoord - screenCenter) * ratio + svgCenter

/-- The `Centers` record returned by `getSvgGeometry`. -/
structure Centers where
  sphereCenterX : ℝ
  sphereCenterY : ℝ
  svgCenterX : ℝ
  svgCenterY : ℝ

/-- `computePoints({mouseX, mouseY, centers, strength, effectiveDistance,
numPoints, physics})`: the sphere demo's displacement solver, producing the
displaced boundary points of the circle. -/
noncomputable def computePoints (mouseX mouseY : ℝ) (centers : Centers)
    (strength effectiveDistance : ℝ) (numPoints : ℕ) (physics : PhysicsConfig) :
    List (ℝ × ℝ) :=
  let cursorSvgX :=
    screenToSvg mouseX centers.sphereCenterX centers.svgCenterX physics.screenToSvgRatio
  let cursorSvgY :=
    screenToSvg mouseY centers.sphereCenterY centers.svgCenterY physics.screenToSvgRatio
  let centerDistance :=
    VectorUtils.calculateDistance mouseX mouseY centers.sphereCenterX centers.sphereCenterY
  let globalDampening := calculateGlobalDampening centerDistance physics
  (List.range numPoints).map fun (i : ℕ) =>
    let angle := ((i : ℝ) / (numPoints : ℝ)) * TAU
    let baseX := centers.svgCenterX + Real.cos angle * physics.baseRadius
    let baseY := centers.svgCenterY + Real.sin angle * physics.baseRadius
    let pointScreenX :=
      centers.sphereCenterX + Real.cos angle * physics.baseRadius * (SCREEN_WIDTH / SVG_WIDTH)
    let pointScreenY :=
      centers.sphereCenterY + Real.sin angle * physics.baseRadius * (SCREEN_HEIGHT / SVG_HEIGHT)
    let rawPointDistance :=
      VectorUtils.calculateDistance mouseX mouseY pointScreenX pointScreenY
    let pointDistanceToMouse := max rawPointDistance physics.minDistance
    let baseMagneticForce :=
      calculateBaseMagneticForce pointDistanceToMouse effectiveDistance physics
    let pointMagneticForce := baseMagneticForce * globalDampening
    let directionToCursor := VectorUtils.normalizeVector (cursorSvgX - baseX) (cursorSvgY - baseY)
    let attractionStrength := pointMagneticForce * strength * physics.attractionMultiplier
    let attractionStrength := attractionStrength * calculateCloseDampening rawPointDistance physics
    let x := baseX + directionToCursor.x * attractionStrength
    let y := baseY + directionToCursor.y * attractionStrength
    let pointinessAmount := calculatePointiness pointMagneticForce strength rawPointDistance physics
    if pointinessAmount > 0 then
      (x + directionToCursor.x * pointinessAmount * physics.pointyReductionAmount,
       y + directionToCursor.y * pointinessAmount * physics.pointyReductionAmount)
    else (x, y)

/-- The resting boundary of the sphere: the `numPoints` base positions
`svgCenter + (cos, sin)(2π i / numPoints) * baseRadius` the generator lays
out before any displacement. -/
noncomputable def restingSpherePoints (centers : Centers) (physics : PhysicsConfig)
    (numPoints : ℕ) : List (ℝ × ℝ) :=
  (List.range numPoints).map fun (i : ℕ) =>
    let angle := ((i : ℝ) / (numPoints : ℝ)) * TAU
    (centers.svgCenterX + Real.cos angle * physics.baseRadius,
     centers.svgCenterY + Real.sin angle * physics.baseRadius)

/-- `buildSmoothPath(points, smoothing)` as emitted geometry: the starting
point and, per index, the two cubic control points and the segment end
produced by the neighbor-blended tangent construction (`none` models the
empty string returned for empty input). -/
noncomputable def buildSmoothPath (points : List (ℝ × ℝ)) (smoothing : ℝ) :
    Option ((ℝ × ℝ) × List ((ℝ × ℝ) × (ℝ × ℝ) × (ℝ × ℝ))) :=
  match points with
  | [] => none
  | p0 :: _ =>
    some (p0, (List.range points.length).map fun i =>
      let current := points.getD i (0, 0)
      let next := points.getD ((i + 1) % points.length) (0, 0)
      let prev := points.getD ((i + points.length - 1) % points.length) (0, 0)
      let nextNext := points.getD ((i + 2) % points.length) (0, 0)
      let prevToNext := (next.1 - prev.1, next.2 - prev.2)
      let currentToNextNext := (nextNext.1 - current.1, nextNext.2 - current.2)
      let cp1 := (current.1 + prevToNext.1 * smoothing, current.2 + prevToNext.2 * smoothing)
      let cp2 := (next.1 - currentToNextNext.1 * smoothing, next.2 - currentToNextNext.2 * smoothing)
      (cp1, cp2, next))

end Sphere

/-- The rectangle-boundary point the spec's linear interpolation describes:
parameter `t` along `side` of a `width × height` rectangle, following the
generator's traversal direction of each side. -/
def edgePointAt {α : Type} [LinearOrderedField α] (width height : α)
    (side : Side) (t : α) : α × α :=
  match side with
  | .top => (t * width, 0)
  | .right => (width, t * height)
  | .bottom => (width - t * width, height)
  | .left => (0, height - t * height)

/-- A concrete configuration exercising the corner clamp of the
displacement solver: a `100 × 100` rectangle with the `right` and `bottom`
edges active, cursor deformation mode, strength 1, and no perceived-cursor
offset. -/
def propsCorner : LavaProps :=
  { width := 100
    height := 100
    activeSides := [.right, .bottom]
    pointsPerSide := 2
    stretchiness := 0.5
    minDistance := 25
    perceivedCursorOffset := 0
    cornerDeflectionFactor := 0.2
    deformationMode := .cursor }

/-- The bottom-right corner point of the `100 × 100` rectangle, as the
generator emits it (`side = bottom`, `sidePosition = 0`). -/
def cornerBottomRight : RectPoint ℝ :=
  { x := 100, y := 100, side := .bottom, baseX := 100, baseY := 100, sidePosition := 0 }

/-- Claim C4: for every `effectiveDistance > 0` and exponent
`forceCurveExponent > 0`, the base magnetic force is `0` at and beyond
`effectiveDistance`, and `1` at distance `0`. -/
theorem baseForce_saturation (config : Sphere.PhysicsConfig) (d effectiveDistance : ℝ)
    (heff : 0 < effectiveDistance) (hk : 0 < config.forceCurveExponent) :
    (effectiveDistance ≤ d →
      Sphere.calculateBaseMagneticForce d effectiveDistance config = 0) ∧
    Sphere.calculateBaseMagneticForce 0 effectiveDistance config = 1 := by
  constructor
  · intro hd
    unfold Sphere.calculateBaseMagneticForce
    dsimp only
    have h1 : min (d / effectiveDistance) 1 = 1 := min_eq_right ((one_le_div heff).mpr hd)
    rw [h1]
    simp [Real.zero_rpow hk.ne']
  · unfold Sphere.calculateBaseMagneticForce
    dsimp only
    rw [zero_div]
    simp [Real.one_rpow]

theorem baseForce_saturation_witness :
    Sphere.calculateBaseMagneticForce 7 5 Sphere.DEFAULT_PHYSICS = 0 ∧
    Sphere.calculateBaseMagneticForce 0 5 Sphere.DEFAULT_PHYSICS = 1 := by
  have h := baseForce_saturation Sphere.DEFAULT_PHYSICS 7 5 (by norm_num)
    (by norm_num [Sphere.DEFAULT_PHYSICS])
  exact ⟨h.1 (by norm_num), h.2⟩

/-- Claim C10: while the svg or path ref is absent or the stored current
path is the empty string, the membership test returns `false` for every
query, invoking neither the fill-test primitive nor the bounding-box
fallback. -/
theorem membership_false_before_path (env : MembershipEnv)
    (fillTest : ℚ → ℚ → Except Unit Bool) (x y : ℚ)
    (h : env.svgPresent = false ∨ env.pathPresent = false ∨ env.currentPath = "") :
    isPointInCurrentShape env fillTest x y = (false, FillMethod.unqueried) := by
  unfold isPointInCurrentShape
  rcases h with h | h | h <;> simp [h]

theorem membership_false_before_path_witness :
    isPointInCurrentShape { envSquare with currentPath := "" }
      (restingRectFillTest 100 100) 50 50 = (false, FillMethod.unqueried) :=
  membership_false_before_path _ _ 50 50 (Or.inr (Or.inr rfl))

/-- Claim C6: the perceived-cursor transform is the identity at offset `0`;
when the attractor coincides with the center it falls back to the fixed
direction `(center.x + offset, center.y)`; otherwise the perceived attractor
sits at `distance(actual, center) + offset` from the center along the unit
direction from the center to the actual attractor. -/
theorem perceive_transform_spec (mouseX mouseY centerX centerY offset : ℝ) :
    (offset = 0 →
      calculatePerceivedCursor mouseX mouseY centerX centerY offset = (mouseX, mouseY)) ∧
    (offset ≠ 0 → (mouseX, mouseY) = (centerX, centerY) →
      calculatePerceivedCursor mouseX mouseY centerX centerY offset =
        (centerX + offset, centerY)) ∧
    (offset ≠ 0 → (mouseX, mouseY) ≠ (centerX, centerY) →
      calculatePerceivedCursor mouseX mouseY centerX centerY offset =
        (centerX + (mouseX - centerX) /
            VectorUtils.calculateDistance mouseX mouseY centerX centerY *
            (VectorUtils.calculateDistance mouseX mouseY centerX centerY + offset),
         centerY + (mouseY - centerY) /
            VectorUtils.calculateDistance mouseX mouseY centerX centerY *
            (VectorUtils.calculateDistance mouseX mouseY centerX centerY + offset))) := by
  refine ⟨fun h0 => ?_, fun hoff heq => ?_, fun hoff hne => ?_⟩
  · unfold calculatePerceivedCursor
    rw [if_pos h0]
  · rw [Prod.mk.injEq] at heq
    unfold calculatePerceivedCursor
    rw [if_neg hoff]
    dsimp only
    have hd : VectorUtils.calculateDistance mouseX mouseY centerX centerY = 0 := by
      unfold VectorUtils.calculateDistance
      rw [heq.1, heq.2]
      simp
    rw [if_pos hd]
  · have hd0 : VectorUtils.calculateDistance mouseX mouseY centerX centerY ≠ 0 := by
      unfold VectorUtils.calculateDistance
      rw [Ne, Real.sqrt_eq_zero']
      intro h
      apply hne
      have ha : (centerX - mouseX) ^ 2 = 0 :=
        le_antisymm (by nlinarith [sq_nonneg (centerX - mouseX), sq_nonneg (centerY - mouseY)])
          (sq_nonneg _)
      have hb : (centerY - mouseY) ^ 2 = 0 :=
        le_antisymm (by nlinarith [sq_nonneg (centerX - mouseX), sq_nonneg (centerY - mouseY)])
          (sq_nonneg _)
      have ha0 : centerX - mouseX = 0 := by
        have := sq_eq_zero_iff.mp ha
        exact this
      have hb0 : centerY - mouseY = 0 := sq_eq_zero_iff.mp hb
      rw [Prod.mk.injEq]
      constructor <;> linarith
    unfold calculatePerceivedCursor
    rw [if_neg hoff]
    dsimp only
    rw [if_neg hd0]
    unfold VectorUtils.normalizeVector
    dsimp only
    have hlen :
        Real.sqrt ((mouseX - centerX) * (mouseX - centerX) +
          (mouseY - centerY) * (mouseY - centerY)) =
        VectorUtils.calculateDistance mouseX mouseY centerX centerY := by
      unfold VectorUtils.calculateDistance
      congr 1
      ring
    have hpos : VectorUtils.calculateDistance mouseX mouseY centerX centerY > 0 := by
      unfold VectorUtils.calculateDistance at hd0 ⊢
      exact lt_of_le_of_ne (Real.sqrt_nonneg _) (Ne.symm hd0)
    rw [hlen, if_pos hpos, if_pos hpos]

theorem perceive_transform_spec_witness :
    calculatePerceivedCursor 3 4 0 0 2 =
      (0 + (3 - 0) / VectorUtils.calculateDistance 3 4 0 0 *
          (VectorUtils.calculateDistance 3 4 0 0 + 2),
       0 + (4 - 0) / VectorUtils.calculateDistance 3 4 0 0 *
          (VectorUtils.calculateDistance 3 4 0 0 + 2)) :=
  (perceive_transform_spec 3 4 0 0 2).2.2 (by norm_num)
    (by simp [Prod.mk.injEq])

theorem generateSidePoints_length {α : Type} [LinearOrderedField α]
    (side : Side) (pointsPerSide : ℕ) (width height : α) :
    (generateSidePoints side pointsPerSide width height).length = pointsPerSide - 2 := by
  unfold generateSidePoints
  rw [List.length_map, List.length_range']

theorem mem_generateRectanglePoints_cases {α : Type} [LinearOrderedField α]
    {width height : α} {activeSides : List Side} {pointsPerSide : ℕ} {p : RectPoint α}
    (hp : p ∈ generateRectanglePoints width height activeSides pointsPerSide) :
    p ∈ generateCornerPoints width height ∨
      ∃ side ∈ activeSides, p ∈ generateSidePoints side pointsPerSide width height := by
  unfold generateRectanglePoints at hp
  rcases List.mem_append.mp hp with h | h
  · exact Or.inl h
  · exact Or.inr (List.mem_flatMap.mp h)

theorem mem_generateRectanglePoints_base {α : Type} [LinearOrderedField α]
    {width height : α} {activeSides : List Side} {pointsPerSide : ℕ} {p : RectPoint α}
    (hp : p ∈ generateRectanglePoints width height activeSides pointsPerSide) :
    p.x = p.baseX ∧ p.y = p.baseY := by
  rcases mem_generateRectanglePoints_cases hp with h | ⟨side, _, h⟩
  · unfold generateCornerPoints at h
    simp only [List.mem_cons, List.not_mem_nil, or_false] at h
    rcases h with rfl | rfl | rfl | rfl <;> exact ⟨rfl, rfl⟩
  · unfold generateSidePoints at h
    rcases List.mem_map.mp h with ⟨i, _, rfl⟩
    exact ⟨rfl, rfl⟩

/-- Claim C7: the rectangle generator always emits the 4 geometric corners
first, then `pointsPerSide - 2` interior points per active side (so the
total count is `4` plus that sum over active sides); every point starts at
its base position, every base position is the linear interpolation of its
`(side, sidePosition)` tag, and non-corner points only appear for active
sides. -/
theorem rectangle_generator_spec (α : Type) [LinearOrderedField α]
    (width height : α) (activeSides : List Side) (pointsPerSide : ℕ) :
    (generateRectanglePoints width height activeSides pointsPerSide).length =
        4 + (activeSides.map fun _ => pointsPerSide - 2).sum ∧
    (generateRectanglePoints width height activeSides pointsPerSide).take 4 =
        [ { x := 0, y := 0, side := .top, baseX := 0, baseY := 0, sidePosition := 0 },
          { x := width, y := 0, side := .top, baseX := width, baseY := 0, sidePosition := 1 },
          { x := width, y := height, side := .bottom, baseX := width, baseY := height,
            sidePosition := 0 },
          { x := 0, y := height, side := .bottom, baseX := 0, baseY := height,
            sidePosition := 1 } ] ∧
    (∀ p ∈ generateRectanglePoints width height activeSides pointsPerSide,
        p.x = p.baseX ∧ p.y = p.baseY ∧
          (p.baseX, p.baseY) = edgePointAt width height p.side p.sidePosition) ∧
    (∀ p ∈ generateRectanglePoints width height activeSides pointsPerSide,
        ¬(p.sidePosition = 0 ∨ p.sidePosition = 1) → p.side ∈ activeSides) := by
  refine ⟨?_, ?_, ?_, ?_⟩
  · unfold generateRectanglePoints
    rw [List.length_append, List.length_flatMap]
    have h4 : (generateCornerPoints width height).length = 4 := rfl
    rw [h4]
    congr 1
    congr 1
    apply List.map_congr_left
    intro side _
    exact generateSidePoints_length side pointsPerSide width height
  · unfold generateRectanglePoints generateCornerPoints
    rfl
  · intro p hp
    refine ⟨(mem_generateRectanglePoints_base hp).1, (mem_generateRectanglePoints_base hp).2, ?_⟩
    rcases mem_generateRectanglePoints_cases hp with h | ⟨side, _, h⟩
    · unfold generateCornerPoints at h
      simp only [List.mem_cons, List.not_mem_nil, or_false] at h
      rcases h with rfl | rfl | rfl | rfl <;> simp [edgePointAt]
    · unfold generateSidePoints at h
      rcases List.mem_map.mp h with ⟨i, _, rfl⟩
      cases side <;> rfl
  · intro p hp hnc
    rcases mem_generateRectanglePoints_cases hp with h | ⟨side, hside, h⟩
    · exfalso
      apply hnc
      unfold generateCornerPoints at h
      simp only [List.mem_cons, List.not_mem_nil, or_false] at h
      rcases h with rfl | rfl | rfl | rfl
      · exact Or.inl rfl
      · exact Or.inr rfl
      · exact Or.inl rfl
      · exact Or.inr rfl
    · unfold generateSidePoints at h
      rcases List.mem_map.mp h with ⟨i, _, rfl⟩
      exact hside

theorem rectangle_generator_spec_witness :
    ((1 : ℚ), (0 : ℚ)) = edgePointAt (3 : ℚ) 2 Side.top (1/3) ∧
    Side.right ∈ [Side.top, Side.right] := by
  have T := rectangle_generator_spec ℚ 3 2 [Side.top, Side.right] 4
  have hmem1 :
      ({ x := 1, y := 0, side := Side.top, baseX := 1, baseY := 0, sidePosition := 1/3 } :
        RectPoint ℚ) ∈ generateRectanglePoints (3 : ℚ) 2 [Side.top, Side.right] 4 := by
    simp only [generateRectanglePoints, generateCornerPoints, generateSidePoints,
      show (4 : ℕ) - 2 = 2 from rfl, List.range']
    simp only [List.flatMap_cons, List.flatMap_nil, List.map_cons, List.map_nil, List.append_nil,
      List.mem_append, List.mem_cons, List.not_mem_nil, or_false]
    norm_num [RectPoint.mk.injEq]
  have hmem2 :
      ({ x := 3, y := 2/3, side := Side.right, baseX := 3, baseY := 2/3, sidePosition := 1/3 } :
        RectPoint ℚ) ∈ generateRectanglePoints (3 : ℚ) 2 [Side.top, Side.right] 4 := by
    simp only [generateRectanglePoints, generateCornerPoints, generateSidePoints,
      show (4 : ℕ) - 2 = 2 from rfl, List.range']
    simp only [List.flatMap_cons, List.flatMap_nil, List.map_cons, List.map_nil, List.append_nil,
      List.mem_append, List.mem_cons, List.not_mem_nil, or_false]
    norm_num [RectPoint.mk.injEq]
  constructor
  · exact (T.2.2.1
      { x := 1, y := 0, side := Side.top, baseX := 1, baseY := 0, sidePosition := 1/3 }
      hmem1).2.2
  · exact T.2.2.2
      { x := 3, y := 2/3, side := Side.right, baseX := 3, baseY := 2/3, sidePosition := 1/3 }
      hmem2 (by norm_num)

theorem transformPoint_locked (ctx : LavaCtx) (p : RectPoint ℝ)
    (hcorner : p.sidePosition = 0 ∨ p.sidePosition = 1)
    (hlocked : checkCornerActivity p ctx.props.activeSides = false) :
    transformPoint ctx p = p := by
  unfold transformPoint
  dsimp only
  rw [if_pos (decide_eq_true hcorner), if_neg]
  rw [hlocked]
  exact Bool.false_ne_true

theorem checkCornerActivity_nil (p : RectPoint ℝ) :
    checkCornerActivity p ([] : List Side) = false := by
  unfold checkCornerActivity adjacentSides
  split <;> (split <;> rfl)

/-- Claim C2: a corner point whose adjacent edges are not both active is
returned at exactly its base position, for every configuration and
attractor position. -/
theorem corner_locking (props : LavaProps)
    (mouseX mouseY centerX centerY strength effectiveDistance : ℝ)
    (p : RectPoint ℝ) (hx : p.x = p.baseX) (hy : p.y = p.baseY)
    (hcorner : p.sidePosition = 0 ∨ p.sidePosition = 1)
    (hlocked : checkCornerActivity p props.activeSides = false) :
    transformPoint (mkLavaCtx props mouseX mouseY centerX centerY strength effectiveDistance) p
        = p ∧
    (transformPoint (mkLavaCtx props mouseX mouseY centerX centerY strength effectiveDistance)
        p).x = p.baseX ∧
    (transformPoint (mkLavaCtx props mouseX mouseY centerX centerY strength effectiveDistance)
        p).y = p.baseY := by
  have h := transformPoint_locked
    (mkLavaCtx props mouseX mouseY centerX centerY strength effectiveDistance) p hcorner hlocked
  rw [h]
  exact ⟨rfl, hx, hy⟩

theorem corner_locking_witness :
    transformPoint
      (mkLavaCtx
        { width := 100, height := 50, activeSides := [Side.top], pointsPerSide := 5,
          stretchiness := 0.5, minDistance := 25, perceivedCursorOffset := 20,
          cornerDeflectionFactor := 0.2, deformationMode := .surfaceNormal }
        0 (-80) 200 100 1 300)
      { x := 0, y := 0, side := Side.top, baseX := 0, baseY := 0, sidePosition := 0 } =
      { x := 0, y := 0, side := Side.top, baseX := 0, baseY := 0, sidePosition := 0 } :=
  (corner_locking
    { width := 100, height := 50, activeSides := [Side.top], pointsPerSide := 5,
      stretchiness := 0.5, minDistance := 25, perceivedCursorOffset := 20,
      cornerDeflectionFactor := 0.2, deformationMode := .surfaceNormal }
    0 (-80) 200 100 1 300
    { x := 0, y := 0, side := Side.top, baseX := 0, baseY := 0, sidePosition := 0 }
    rfl rfl (Or.inl rfl)
    (by simp [checkCornerActivity, adjacentSides])).1

/-- Claim C3: with no active edges the emitted path is the resting 4-corner
rectangle path, for every attractor position and strength. -/
theorem empty_active_sides_resting_path
    (width height stretchiness minDistance perceivedCursorOffset cornerDeflectionFactor : ℝ)
    (pointsPerSide : ℕ) (mode : DeformationMode)
    (mouseX mouseY centerX centerY strength effectiveDistance : ℝ) :
    generateLavaPathPoints
      { width := width, height := height, activeSides := [], pointsPerSide := pointsPerSide,
        stretchiness := stretchiness, minDistance := minDistance,
        perceivedCursorOffset := perceivedCursorOffset,
        cornerDeflectionFactor := cornerDeflectionFactor, deformationMode := mode }
      mouseX mouseY centerX centerY strength effectiveDistance =
      [(0, 0), (width, 0), (width, height), (0, height)] := by
  unfold generateLavaPathPoints
  dsimp only
  have hgen : generateRectanglePoints width height ([] : List Side) pointsPerSide =
      generateCornerPoints width height := by
    unfold generateRectanglePoints
    simp
  rw [hgen]
  have hmap : ∀ ctx : LavaCtx, ctx.props.activeSides = [] →
      (generateCornerPoints width height).map (transformPoint ctx) =
        generateCornerPoints width height := by
    intro ctx hnil
    have hid : ∀ p ∈ generateCornerPoints width height, transformPoint ctx p = p := by
      intro p hp
      apply transformPoint_locked
      · unfold generateCornerPoints at hp
        simp only [List.mem_cons, List.not_mem_nil, or_false] at hp
        rcases hp with rfl | rfl | rfl | rfl
        · exact Or.inl rfl
        · exact Or.inr rfl
        · exact Or.inl rfl
        · exact Or.inr rfl
      · rw [hnil]
        exact checkCornerActivity_nil p
    calc (generateCornerPoints width height).map (transformPoint ctx)
        = (generateCornerPoints width height).map id := List.map_congr_left hid
      _ = generateCornerPoints width height := List.map_id _
  rw [hmap _ rfl]
  have hsorted : List.Sorted sortKeyLE (generateCornerPoints width height) := by
    unfold generateCornerPoints
    refine List.sorted_cons.mpr ⟨?_, List.sorted_cons.mpr ⟨?_, List.sorted_cons.mpr
      ⟨?_, List.sorted_singleton _⟩⟩⟩
    · intro b hb
      simp only [List.mem_cons, List.not_mem_nil, or_false] at hb
      rcases hb with rfl | rfl | rfl <;> simp [sortKeyLE, getSortOrder]
    · intro b hb
      simp only [List.mem_cons, List.not_mem_nil, or_false] at hb
      rcases hb with rfl | rfl <;> simp [sortKeyLE, getSortOrder]
    · intro b hb
      simp only [List.mem_cons, List.not_mem_nil, or_false] at hb
      rcases hb with rfl
      simp [sortKeyLE, getSortOrder]
  unfold sortPoints
  rw [List.Sorted.insertionSort_eq hsorted]
  rfl

theorem applyCornerDampening_zero (isCorner : Bool) (p : RectPoint ℝ) (factor : ℝ) :
    applyCornerDampening 0 isCorner p factor = 0 := by
  unfold applyCornerDampening
  dsimp only
  split_ifs <;> ring

theorem calculateDeformation_zero (p : RectPoint ℝ) (cx cy : ℝ) (mode : DeformationMode)
    (ic : Bool) :
    (calculateDeformation p cx cy 0 mode ic).newX = p.baseX ∧
    (calculateDeformation p cx cy 0 mode ic).newY = p.baseY := by
  unfold calculateDeformation
  cases mode
  · dsimp only
    constructor <;> ring
  · dsimp only
    constructor <;> (split_ifs <;> ring)

theorem preventInwardMovement_base (p : RectPoint ℝ) (ic : Bool) (config : PhysicsConfig) :
    preventInwardMovement p p.baseX p.baseY ic config = (p.baseX, p.baseY) := by
  unfold preventInwardMovement
  split
  · dsimp only
    split_ifs <;> simp_all [lt_irrefl]
  · split <;> (split_ifs <;> simp_all [lt_irrefl])

theorem displacePoint_strength_zero (ctx : LavaCtx) (hs : ctx.strength = 0)
    (p : RectPoint ℝ) (ic : Bool) :
    displacePoint ctx p ic = { p with x := p.baseX, y := p.baseY } := by
  unfold displacePoint
  dsimp only
  rw [hs]
  simp only [mul_zero, applyCornerDampening_zero, PhysicsUtils.calculateStretch, zero_mul,
    gt_iff_lt, lt_self_iff_false, if_false]
  rw [(calculateDeformation_zero p ctx.cursorSvgX ctx.cursorSvgY ctx.props.deformationMode ic).1,
    (calculateDeformation_zero p ctx.cursorSvgX ctx.cursorSvgY ctx.props.deformationMode ic).2,
    preventInwardMovement_base]

theorem transformPoint_strength_zero (ctx : LavaCtx) (hs : ctx.strength = 0)
    (p : RectPoint ℝ) (hx : p.x = p.baseX) (hy : p.y = p.baseY) :
    transformPoint ctx p = p := by
  have hbase : ({ p with x := p.baseX, y := p.baseY } : RectPoint ℝ) = p := by
    cases p
    simp_all
  unfold transformPoint
  dsimp only
  split_ifs <;> first
    | rfl
    | (rw [displacePoint_strength_zero ctx hs]; exact hbase)

theorem calculatePointiness_strength_zero (magneticForce rawDistance : ℝ)
    (config : Sphere.PhysicsConfig) (hmp : 0 ≤ config.maxPointiness) :
    Sphere.calculatePointiness magneticForce 0 rawDistance config = 0 := by
  unfold Sphere.calculatePointiness
  split
  · dsimp only
    rw [mul_zero, zero_mul, min_eq_left hmp, zero_mul, zero_mul]
  · rfl

/-- Claim C8: running the boundary generator, then the displacement solver
with strength `0` (the attractor's force contribution vanished), then the
curve builder, yields exactly the resting shape's path — for the sphere
pipeline and for the rectangle pipeline, at every attractor position. -/
theorem strength_zero_round_trip
    (config : Sphere.PhysicsConfig) (centers : Sphere.Centers)
    (mouseX mouseY effectiveDistance : ℝ) (numPoints : ℕ)
    (hmp : 0 ≤ config.maxPointiness)
    (props : LavaProps) (rMouseX rMouseY rCenterX rCenterY rEffectiveDistance : ℝ) :
    Sphere.computePoints mouseX mouseY centers 0 effectiveDistance numPoints config =
        Sphere.restingSpherePoints centers config numPoints ∧
    Sphere.buildSmoothPath
        (Sphere.computePoints mouseX mouseY centers 0 effectiveDistance numPoints config)
        config.smoothingFactor =
      Sphere.buildSmoothPath (Sphere.restingSpherePoints centers config numPoints)
        config.smoothingFactor ∧
    generateLavaPathPoints props rMouseX rMouseY rCenterX rCenterY 0 rEffectiveDistance =
        restingLavaPath props := by
  have hsphere :
      Sphere.computePoints mouseX mouseY centers 0 effectiveDistance numPoints config =
        Sphere.restingSpherePoints centers config numPoints := by
    unfold Sphere.computePoints Sphere.restingSpherePoints
    dsimp only
    apply List.map_congr_left
    intro i _
    dsimp only
    rw [calculatePointiness_strength_zero _ _ _ hmp]
    simp only [mul_zero, zero_mul, add_zero, gt_iff_lt, lt_self_iff_false, if_false]
  have hrect :
      generateLavaPathPoints props rMouseX rMouseY rCenterX rCenterY 0 rEffectiveDistance =
        restingLavaPath props := by
    have hmapeq :
        (generateRectanglePoints props.width props.height props.activeSides
            props.pointsPerSide).map
          (transformPoint (mkLavaCtx props rMouseX rMouseY rCenterX rCenterY 0
            rEffectiveDistance)) =
        generateRectanglePoints props.width props.height props.activeSides
          props.pointsPerSide := by
      have hid : ∀ p ∈ generateRectanglePoints props.width props.height props.activeSides
          props.pointsPerSide,
          transformPoint (mkLavaCtx props rMouseX rMouseY rCenterX rCenterY 0
            rEffectiveDistance) p = p := by
        intro p hp
        have hb := mem_generateRectanglePoints_base hp
        exact transformPoint_strength_zero _ rfl p hb.1 hb.2
      have h1 := List.map_congr_left hid
      simpa using h1
    unfold generateLavaPathPoints restingLavaPath
    dsimp only
    rw [hmapeq]
  exact ⟨hsphere, by rw [hsphere], hrect⟩

theorem strength_zero_round_trip_witness :
    Sphere.computePoints 900 900
        { sphereCenterX := 200, sphereCenterY := 200, svgCenterX := 300, svgCenterY := 300 }
        0 1000 8 Sphere.DEFAULT_PHYSICS =
      Sphere.restingSpherePoints
        { sphereCenterX := 200, sphereCenterY := 200, svgCenterX := 300, svgCenterY := 300 }
        Sphere.DEFAULT_PHYSICS 8 :=
  (strength_zero_round_trip Sphere.DEFAULT_PHYSICS
    { sphereCenterX := 200, sphereCenterY := 200, svgCenterX := 300, svgCenterY := 300 }
    900 900 1000 8 (by norm_num [Sphere.DEFAULT_PHYSICS])
    { width := 100, height := 50, activeSides := [Side.top], pointsPerSide := 5,
      stretchiness := 0.5, minDistance := 25, perceivedCursorOffset := 20,
      cornerDeflectionFactor := 0.2, deformationMode := .surfaceNormal }
    0 0 40 40 1000).1

theorem calculateGlobalDampening_eq_min (config : Sphere.PhysicsConfig)
    (hb : 0 < config.surfaceBuffer) (hm0 : 0 ≤ config.minDampeningFactor)
    (hm1 : config.minDampeningFactor ≤ 1) (hp : 0 ≤ config.dampeningPower) (d : ℝ) :
    Sphere.calculateGlobalDampening d config =
      min ((max (max (d - config.baseRadius * (Sphere.SCREEN_WIDTH / config.svgSize)) 0 /
          config.surfaceBuffer) config.minDampeningFactor) ^ config.dampeningPower) 1 := by
  unfold Sphere.calculateGlobalDampening
  dsimp only
  by_cases hd : d < config.baseRadius * (Sphere.SCREEN_WIDTH / config.svgSize) +
      config.surfaceBuffer
  · rw [if_pos hd]
    have hub : max (max (d - config.baseRadius * (Sphere.SCREEN_WIDTH / config.svgSize)) 0 /
        config.surfaceBuffer) config.minDampeningFactor ≤ 1 := by
      apply max_le _ hm1
      rw [div_le_one hb]
      exact max_le (by linarith) hb.le
    have hlb : 0 ≤ max (max (d - config.baseRadius * (Sphere.SCREEN_WIDTH / config.svgSize)) 0 /
        config.surfaceBuffer) config.minDampeningFactor :=
      le_trans hm0 (le_max_right _ _)
    exact (min_eq_left (Real.rpow_le_one hlb hub hp)).symm
  · rw [if_neg hd]
    push_neg at hd
    have h1 : (1 : ℝ) ≤
        max (max (d - config.baseRadius * (Sphere.SCREEN_WIDTH / config.svgSize)) 0 /
          config.surfaceBuffer) config.minDampeningFactor := by
      refine le_trans ?_ (le_max_left _ _)
      rw [le_div_iff₀ hb, one_mul]
      exact le_trans (by linarith) (le_max_left _ _)
    exact (min_eq_right (Real.one_le_rpow h1 hp)).symm

/-- Claim C5: the surface dampening is exactly 1 at and beyond
`shapeRadius + surfaceBuffer` (where `shapeRadius` is the screen-space
sphere radius the source derives from the config), is continuous at that
buffer boundary, and inside the buffer equals the surface-distance ratio
floored at `minDampeningFactor` and raised to `dampeningPower`. -/
theorem surfaceDampening_boundary (config : Sphere.PhysicsConfig)
    (hb : 0 < config.surfaceBuffer) (hm0 : 0 ≤ config.minDampeningFactor)
    (hm1 : config.minDampeningFactor ≤ 1) (hp : 0 ≤ config.dampeningPower) :
    (∀ distanceToCenter : ℝ,
        config.baseRadius * (Sphere.SCREEN_WIDTH / config.svgSize) + config.surfaceBuffer ≤
          distanceToCenter →
        Sphere.calculateGlobalDampening distanceToCenter config = 1) ∧
    ContinuousAt (fun d => Sphere.calculateGlobalDampening d config)
      (config.baseRadius * (Sphere.SCREEN_WIDTH / config.svgSize) + config.surfaceBuffer) ∧
    (∀ distanceToCenter : ℝ,
        distanceToCenter <
          config.baseRadius * (Sphere.SCREEN_WIDTH / config.svgSize) + config.surfaceBuffer →
        Sphere.calculateGlobalDampening distanceToCenter config =
          max (max (distanceToCenter -
              config.baseRadius * (Sphere.SCREEN_WIDTH / config.svgSize)) 0 /
            config.surfaceBuffer) config.minDampeningFactor ^ config.dampeningPower) := by
  refine ⟨fun d hd => ?_, ?_, fun d hd => ?_⟩
  · unfold Sphere.calculateGlobalDampening
    dsimp only
    rw [if_neg (not_lt.mpr hd)]
  · have heq : (fun d => Sphere.calculateGlobalDampening d config) =
        fun d => min ((max (max (d - config.baseRadius * (Sphere.SCREEN_WIDTH / config.svgSize))
            0 / config.surfaceBuffer) config.minDampeningFactor) ^ config.dampeningPower) 1 :=
      funext (calculateGlobalDampening_eq_min config hb hm0 hm1 hp)
    rw [heq]
    apply ContinuousAt.inf _ continuousAt_const
    apply ContinuousAt.rpow_const
    · apply ContinuousAt.sup _ continuousAt_const
      apply ContinuousAt.div_const
      apply ContinuousAt.sup _ continuousAt_const
      exact (continuous_id.sub continuous_const).continuousAt
    · exact Or.inr hp
  · unfold Sphere.calculateGlobalDampening
    dsimp only
    rw [if_pos hd]

theorem surfaceDampening_boundary_witness :
    Sphere.calculateGlobalDampening 1000 Sphere.DEFAULT_PHYSICS = 1 :=
  (surfaceDampening_boundary Sphere.DEFAULT_PHYSICS
      (by norm_num [Sphere.DEFAULT_PHYSICS])
      (by norm_num [Sphere.DEFAULT_PHYSICS])
      (by norm_num [Sphere.DEFAULT_PHYSICS])
      (by norm_num [Sphere.DEFAULT_PHYSICS])).1 1000
    (by norm_num [Sphere.DEFAULT_PHYSICS, Sphere.SCREEN_WIDTH, Sphere.SVG_WIDTH])

theorem notifyStep_same (s : Bool) : notifyStep s s = (s, false) := by
  unfold notifyStep
  simp

theorem notifyStep_flip (s : Bool) : notifyStep s (!s) = (!s, true) := by
  unfold notifyStep
  cases s <;> rfl

theorem runNotify_same (s : Bool) (bs : List Bool) (h : ∀ b ∈ bs, b = s) :
    runNotify s bs = (s, 0) := by
  induction bs with
  | nil => rfl
  | cons b bs ih =>
    have hb : b = s := h b (List.mem_cons_self b bs)
    subst hb
    simp only [runNotify, notifyStep_same]
    rw [ih (fun x hx => h x (List.mem_cons_of_mem _ hx))]
    simp

theorem runNotify_flip_then_same (s : Bool) (bs : List Bool) (h : ∀ b ∈ bs, b = !s)
    (hne : bs ≠ []) : runNotify s bs = (!s, 1) := by
  cases bs with
  | nil => exact absurd rfl hne
  | cons b bs =>
    have hb : b = !s := h b (List.mem_cons_self b bs)
    subst hb
    simp only [runNotify, notifyStep_flip]
    rw [runNotify_same (!s) bs (fun x hx => h x (List.mem_cons_of_mem _ hx))]
    simp

theorem runNotify_append (s : Bool) (l1 l2 : List Bool) :
    runNotify s (l1 ++ l2) =
      ((runNotify (runNotify s l1).1 l2).1,
        (runNotify s l1).2 + (runNotify (runNotify s l1).1 l2).2) := by
  induction l1 generalizing s with
  | nil => simp [runNotify]
  | cons b bs ih =>
    simp only [List.cons_append, runNotify, List.append_eq]
    rw [ih]
    dsimp only
    rw [Nat.add_assoc]

/-- Claim C9 (amended): the inside-notification callback is driven by
shape-membership transitions: a run whose frames are outside the shape,
then inside (at least one frame), then outside again (at least one frame)
fires the callback exactly twice — once on entry and once on exit — and
the frames preceding entry fire it zero times. -/
theorem notify_fires_twice_on_enter_exit (env : MembershipEnv)
    (fillTest : ℚ → ℚ → Except Unit Bool) (ps qs rs : List (ℚ × ℚ))
    (hps : ∀ p ∈ ps, frameMembership env fillTest p = false)
    (hqs : ∀ q ∈ qs, frameMembership env fillTest q = true)
    (hrs : ∀ r ∈ rs, frameMembership env fillTest r = false)
    (hq : qs ≠ []) (hr : rs ≠ []) :
    (runFrames env fillTest false (ps ++ qs ++ rs)).2 = 2 ∧
    (runFrames env fillTest false ps).2 = 0 := by
  have hmapped : ∀ (l : List (ℚ × ℚ)) (c : Bool),
      (∀ p ∈ l, frameMembership env fillTest p = c) →
      ∀ b ∈ l.map (frameMembership env fillTest), b = c := by
    intro l c hl b hb
    rcases List.mem_map.mp hb with ⟨p, hp, rfl⟩
    exact hl p hp
  have hqnil : qs.map (frameMembership env fillTest) ≠ [] := by
    intro hnil
    exact hq (List.map_eq_nil_iff.mp hnil)
  have hrnil : rs.map (frameMembership env fillTest) ≠ [] := by
    intro hnil
    exact hr (List.map_eq_nil_iff.mp hnil)
  have e1 : runNotify false (List.map (frameMembership env fillTest) ps) = (false, 0) :=
    runNotify_same false _ (hmapped ps false hps)
  have e2 : runNotify false (List.map (frameMembership env fillTest) qs) = (true, 1) :=
    runNotify_flip_then_same false _ (hmapped qs true hqs) hqnil
  have e3 : runNotify true (List.map (frameMembership env fillTest) rs) = (false, 1) :=
    runNotify_flip_then_same true _ (hmapped rs false hrs) hrnil
  constructor
  · unfold runFrames
    rw [List.append_assoc, List.map_append, List.map_append, runNotify_append, e1]
    dsimp only
    rw [runNotify_append, e2]
    dsimp only
    rw [e3]
    rfl
  · unfold runFrames
    rw [e1]

theorem frameMembership_far_outside :
    frameMembership envSquare (restingRectFillTest 100 100) (500, 200) = false := by
  unfold frameMembership isPointInCurrentShape envSquare restingRectFillTest
  norm_num
  simp

theorem frameMembership_mid_outside :
    frameMembership envSquare (restingRectFillTest 100 100) (350, 200) = false := by
  unfold frameMembership isPointInCurrentShape envSquare restingRectFillTest
  norm_num
  simp

theorem frameMembership_inside :
    frameMembership envSquare (restingRectFillTest 100 100) (50, 50) = true := by
  unfold frameMembership isPointInCurrentShape envSquare restingRectFillTest
  norm_num
  simp

theorem notify_fires_twice_on_enter_exit_witness :
    (runFrames envSquare (restingRectFillTest 100 100) false
        ([(500, 200)] ++ [(50, 50)] ++ [(500, 200)])).2 = 2 ∧
    (runFrames envSquare (restingRectFillTest 100 100) false [(500, 200)]).2 = 0 :=
  notify_fires_twice_on_enter_exit envSquare (restingRectFillTest 100 100)
    [(500, 200)] [(50, 50)] [(500, 200)]
    (by
      intro p hp
      rw [List.mem_singleton] at hp
      subst hp
      exact frameMembership_far_outside)
    (by
      intro q hq
      rw [List.mem_singleton] at hq
      subst hq
      exact frameMembership_inside)
    (by
      intro r hr
      rw [List.mem_singleton] at hr
      subst hr
      exact frameMembership_far_outside)
    (by simp) (by simp)

/-- Claim C9, counterexample: one recomputation cycle each moves the
attractor from outside `effectiveDistance = 200` (distance 300 to the
screen center the controller computes) to inside it (distance 150) and
back out, yet the inside-notification callback fires zero times, not
twice: the attractor never enters the shape itself, and the callback is
driven by the membership test, not by the activation radius. -/
theorem notify_not_tied_to_effective_distance :
    rectScreenCenter envSquare = (200, 200) ∧
    ¬ VectorUtils.calculateDistance 500 200 200 200 < 200 ∧
    VectorUtils.calculateDistance 350 200 200 200 < 200 ∧
    ¬ VectorUtils.calculateDistance 500 200 200 200 < 200 ∧
    (runFrames envSquare (restingRectFillTest 100 100) false
        [(500, 200), (350, 200), (500, 200)]).2 = 0 ∧
    (runFrames envSquare (restingRectFillTest 100 100) false
        [(500, 200), (350, 200), (500, 200)]).2 ≠ 2 := by
  have h1 : VectorUtils.calculateDistance 500 200 200 200 = 300 := by
    unfold VectorUtils.calculateDistance
    rw [show ((200 : ℝ) - 500) ^ 2 + ((200 : ℝ) - 200) ^ 2 = 300 ^ 2 by norm_num]
    exact Real.sqrt_sq (by norm_num)
  have h2 : VectorUtils.calculateDistance 350 200 200 200 = 150 := by
    unfold VectorUtils.calculateDistance
    rw [show ((200 : ℝ) - 350) ^ 2 + ((200 : ℝ) - 200) ^ 2 = 150 ^ 2 by norm_num]
    exact Real.sqrt_sq (by norm_num)
  refine ⟨?_, ?_, ?_, ?_, ?_, ?_⟩
  · unfold rectScreenCenter envSquare MATH_CONSTANTS.HALF
    norm_num
  · rw [h1]
    norm_num
  · rw [h2]
    norm_num
  · rw [h1]
    norm_num
  · unfold runFrames
    simp only [List.map_cons, List.map_nil, frameMembership_far_outside,
      frameMembership_mid_outside]
    rfl
  · unfold runFrames
    simp only [List.map_cons, List.map_nil, frameMembership_far_outside,
      frameMembership_mid_outside]
    decide

/-- Claim C1, failing input: with the cursor deformation mode, both edges
adjacent to the bottom-right corner active, and the attractor up-left of
that corner, the displaced corner ends up strictly above its base Y — an
inward movement past the bottom edge that `preventInwardMovement` was meant
to clamp.  The cause is the corner branch computing the rectangle center as
`width / MATH_CONSTANTS.HALF` (`width / 0.5 = 2·width`) instead of
`width / 2`, so every corner is classified as a top-left corner and the
bottom/right inward clamps never run. -/
theorem corner_inward_movement_bug :
    cornerBottomRight ∈ generateRectanglePoints (100 : ℝ) 100 [Side.right, Side.bottom] 2 ∧
    cornerBottomRight.side = Side.bottom ∧
    (transformPoint (mkLavaCtx propsCorner 148 80 200 200 1 1000) cornerBottomRight).y <
      cornerBottomRight.baseY := by
  refine ⟨?_, rfl, ?_⟩
  · unfold cornerBottomRight
    simp only [generateRectanglePoints, generateCornerPoints, generateSidePoints,
      show (2 : ℕ) - 2 = 0 from rfl, List.range']
    simp
  · have hsqrt : Real.sqrt 2704 = 52 := by
      rw [show (2704 : ℝ) = 52 ^ 2 by norm_num]
      exact Real.sqrt_sq (by norm_num)
    have hperc : calculatePerceivedCursor 148 80 200 200 0 = (148, 80) := by
      unfold calculatePerceivedCursor
      rw [if_pos rfl]
    have hctx : mkLavaCtx propsCorner 148 80 200 200 1 1000 =
        { props := propsCorner, strength := 1, effectiveDistance := 1000,
          centerX := 200, centerY := 200, svgCenterX := 200, svgCenterY := 200,
          perceivedX := 148, perceivedY := 80, cursorSvgX := 148, cursorSvgY := 80 } := by
      unfold mkLavaCtx CoordinateUtils.screenToSvg MATH_CONSTANTS.HALF propsCorner
      dsimp only
      rw [hperc]
      norm_num [LavaCtx.mk.injEq]
    rw [hctx]
    unfold transformPoint
    dsimp only [cornerBottomRight, propsCorner]
    rw [if_pos (decide_eq_true (Or.inl rfl))]
    rw [show (decide ((0 : ℝ) = 0 ∨ (0 : ℝ) = 1)) = true from decide_eq_true (Or.inl rfl)]
    have hact : checkCornerActivity
        ({ x := 100, y := 100, side := Side.bottom, baseX := 100, baseY := 100,
           sidePosition := 0 } : RectPoint ℝ) [Side.right, Side.bottom] = true := by
      simp [checkCornerActivity, adjacentSides]
    rw [if_pos hact]
    have hraw : VectorUtils.calculateDistance 148 80 (200 + (100 - 200)) (200 + (100 - 200)) =
        52 := by
      unfold VectorUtils.calculateDistance
      rw [show ((200 + (100 - 200) : ℝ) - 148) ^ 2 + ((200 + (100 - 200) : ℝ) - 80) ^ 2 = 2704
        by norm_num]
      exact hsqrt
    have hnorm : VectorUtils.normalizeVector (148 - 100) (80 - 100) =
        { x := (148 - 100) / 52, y := (80 - 100) / 52, length := 52 } := by
      unfold VectorUtils.normalizeVector
      have hl : Real.sqrt ((148 - 100 : ℝ) * (148 - 100) + (80 - 100 : ℝ) * (80 - 100)) = 52 := by
        rw [show ((148 - 100 : ℝ)) * (148 - 100) + ((80 - 100 : ℝ)) * (80 - 100) = 2704
          by norm_num]
        exact hsqrt
      dsimp only
      rw [hl]
      simp only [if_pos (show (52 : ℝ) > 0 by norm_num)]
    unfold displacePoint lavaPhysicsConfig calculateDeformation
      PhysicsUtils.calculateBaseMagneticForce PhysicsUtils.calculateStretch
      applyCornerDampening preventInwardMovement MATH_CONSTANTS.HALF
      MATH_CONSTANTS.STRETCH_SCALE_FACTOR
    dsimp only [cornerBottomRight, propsCorner]
    rw [hraw, hnorm]
    rw [show max (52 : ℝ) 25 = 52 from max_eq_left (by norm_num)]
    rw [show min ((52 : ℝ) / 1000) 1 = 52 / 1000 from min_eq_left (by norm_num)]
    norm_num
end Magnetic
